import Mathlib

/-!
Shallow embedding of `src/gopcp.v2/chapter3/socket/tcp_socket.go`:
a TCP cube-root service with a delimiter-framed message codec, a
per-connection handler loop, an accept loop and a WaitGroup used for
shutdown coordination.  Bytes are modelled as `Nat`, byte streams as
lists, and the effectful calls (`conn.Read`, `conn.Write`,
`listener.Accept`, deadlines, WaitGroup operations) as explicit events
and operation traces.
-/

namespace TcpSocket

/-! ### Framing codec (`read` / `write`, lines 89-117) -/

/-- `DELIMITER = '\t'` (line 19): the single data-boundary byte. -/
def DELIMITER : Nat := 9

/-- Model of `bytes.Buffer`: an append-only byte sequence. -/
structure Buffer where
  data : List Nat
deriving DecidableEq

/-- `buffer.WriteString(s)` appends the bytes of `s`. -/
def Buffer.writeString (b : Buffer) (s : List Nat) : Buffer :=
  Buffer.mk (b.data ++ s)

/-- `buffer.WriteByte(c)` appends the single byte `c`. -/
def Buffer.writeByte (b : Buffer) (c : Nat) : Buffer :=
  Buffer.mk (b.data ++ [c])

/-- `write(conn, content)` (lines 112-117): stage `content` then the
delimiter in a fresh `bytes.Buffer` and hand `buffer.Bytes()` to a single
`conn.Write` call.  The value returned here is the byte sequence of that
one outbound write. -/
def write (content : List Nat) : List Nat :=
  (((Buffer.mk []).writeString content).writeByte DELIMITER).data

/-- On success Go's `conn.Write` returns `n = len(data)` (a short write is
reported with a non-nil error), so the byte count `write` returns on
success is the length of the staged data. -/
def writeSuccessCount (content : List Nat) : Nat :=
  (write content).length

/-- The outcome of one `conn.Read(readBytes)` call with the 1-byte buffer:
either one byte arrives, or the call returns `(0, nil)` (zero bytes, no
error), or it returns a non-nil error (EOF, timeout, other I/O error). -/
inductive ReadEv
  | byte (b : Nat)
  | zero
  | fail
deriving DecidableEq

/-- The loop body of `read` (lines 93-104).  State: the remaining stream of
`conn.Read` outcomes, the current content of the persistent 1-byte buffer
`readBytes` (zero-initialised by `make([]byte, 1)`), and the accumulated
`bytes.Buffer`.  The code ignores the returned byte count (`_, err :=
conn.Read(readBytes)`) and always inspects `readBytes[0]`, so a
`(0, nil)` read leaves the stale buffer byte in place and processes it
again.  An exhausted stream is an error: the blocking call never returns
without an outcome. -/
def readLoop : List ReadEv → Nat → List Nat → Except Unit (List Nat × List ReadEv)
  | [], _, _ => Except.error ()
  | ReadEv.fail :: _, _, _ => Except.error ()
  | ReadEv.zero :: rest, buf, acc =>
      if buf = DELIMITER then Except.ok (acc, rest)
      else readLoop rest buf (acc ++ [buf])
  | ReadEv.byte b :: rest, _, acc =>
      if b = DELIMITER then Except.ok (acc, rest)
      else readLoop rest b (acc ++ [b])

/-- `read(conn)` (lines 89-106): read single bytes until the delimiter,
returning the accumulated payload and the unconsumed remainder of the
stream.  `readBytes` starts zero-initialised and the accumulator empty. -/
def read (evs : List ReadEv) : Except Unit (List Nat × List ReadEv) :=
  readLoop evs 0 []

/-! ### Request processor (`strToInt32` / `cbrt`, lines 51-64) -/

/-- The two failure modes of `strconv.ParseInt`: malformed text
(`ErrSyntax`) and a value outside the requested bit width (`ErrRange`). -/
inductive NumErr
  | malformed
  | outOfRange
deriving DecidableEq

/-- ASCII decimal digit test, as `strconv` performs per byte. -/
def isDigitCh (c : Char) : Bool :=
  48 ≤ c.toNat && c.toNat ≤ 57

/-- Value of a digit string (most significant first). -/
def digitsVal (cs : List Char) : Nat :=
  cs.foldl (fun a c => a * 10 + (c.toNat - 48)) 0

/-- `strconv.ParseInt(s, 10, 0)` (line 52): an optional sign, then a
non-empty run of decimal digits; `bitSize 0` means the platform `int`,
64-bit here, so the accepted range is `[-2^63, 2^63 - 1]` and anything
wider is `ErrRange`.  Go's incremental overflow check errors exactly when
the mathematical value leaves that range, so the range test is taken on
the exact value. -/
def goParseInt (s : String) : Except NumErr Int :=
  let cs := s.toList
  let sd : Bool × List Char :=
    match cs with
    | '+' :: rest => (false, rest)
    | '-' :: rest => (true, rest)
    | rest => (false, rest)
  if sd.2 = [] ∨ sd.2.all isDigitCh = false then Except.error NumErr.malformed
  else
    let v : Int := if sd.1 then -(digitsVal sd.2 : Int) else (digitsVal sd.2 : Int)
    if v < -(2 ^ 63) ∨ 2 ^ 63 - 1 < v then Except.error NumErr.outOfRange
    else Except.ok v

/-- The two errors `strToInt32` constructs: `"%s" is not integer` when
`ParseInt` failed, and `%d is not 32-bit integer` when the parsed value is
outside the `int32` range. -/
inductive ReqErr
  | notInteger (s : String)
  | notInt32 (n : Int)
deriving DecidableEq

/-- `strToInt32` (lines 51-60): any `ParseInt` error (malformed or wider
than 64-bit) becomes the `notInteger` error with the original text; a
parsed value with `num > math.MaxInt32 || num < math.MinInt32` becomes the
`notInt32` error carrying the value. -/
def strToInt32 (s : String) : Except ReqErr Int :=
  match goParseInt s with
  | Except.error _ => Except.error (ReqErr.notInteger s)
  | Except.ok num =>
      if (2 ^ 31 - 1 : Int) < num ∨ num < -(2 ^ 31) then
        Except.error (ReqErr.notInt32 num)
      else Except.ok num

/-- `err.Error()` texts of the two request-level failures as formatted by
`fmt.Errorf` (lines 54 and 57). -/
def errText : ReqErr → String
  | ReqErr.notInteger s => "\"" ++ s ++ "\" is not integer"
  | ReqErr.notInt32 n => toString n ++ " is not 32-bit integer"

/-- The success response (line 193):
`fmt.Sprintf("The cube root of %d is %f.", intReq, floatResp)`, with the
`%f` rendering of the `float64` cube root abstracted as `cbrtStr`. -/
def respMsg (cbrtStr : Int → String) (v : Int) : String :=
  "The cube root of " ++ toString v ++ " is " ++ cbrtStr v ++ "."

/-! ### Connection handler (`handleConn`, lines 164-200) -/

/-- Outcome of the `read(conn)` call of one iteration: a complete message,
or the three terminal errors (peer closed / deadline exceeded / other I/O
failure). -/
inductive ReadResult
  | msg (s : String)
  | eofClosed
  | timeoutEv
  | ioFail
deriving DecidableEq

/-- Whether the `for` loop proceeds to the next iteration or exits. -/
inductive Ctl
  | continueLoop
  | breakLoop
deriving DecidableEq

/-- The externally visible operations of one handler iteration (logging
elided): set the read deadline, call `read`, write one framed message;
plus the deferred `conn.Close()` and `wg.Done()`. -/
inductive HOp
  | setReadDeadline (secs : Nat)
  | readCall
  | writeMsg (payload : String)
  | closeConn
  | wgDone
deriving DecidableEq

def isWriteOp : HOp → Bool
  | HOp.writeMsg _ => true
  | _ => false

/-- One iteration of the `handleConn` loop (lines 169-199), as the ordered
operations it performs and the resulting control flow.  Each iteration
first sets the read deadline to now + 10s (line 171) and then reads.  A
read error of any kind breaks the loop (line 180).  Otherwise the request
is parsed: on failure the error text is written and the loop continues
(line 189); on success the response is written and the loop continues —
the write error at line 195 is only logged, so `_wFail` (whether the write
of this iteration fails) never affects the result. -/
def handleConnStep (cbrtStr : Int → String) (r : ReadResult) (_wFail : Bool) :
    List HOp × Ctl :=
  match r with
  | ReadResult.eofClosed => ([HOp.setReadDeadline 10, HOp.readCall], Ctl.breakLoop)
  | ReadResult.timeoutEv => ([HOp.setReadDeadline 10, HOp.readCall], Ctl.breakLoop)
  | ReadResult.ioFail => ([HOp.setReadDeadline 10, HOp.readCall], Ctl.breakLoop)
  | ReadResult.msg s =>
      match strToInt32 s with
      | Except.error e =>
          ([HOp.setReadDeadline 10, HOp.readCall, HOp.writeMsg (errText e)],
           Ctl.continueLoop)
      | Except.ok v =>
          ([HOp.setReadDeadline 10, HOp.readCall, HOp.writeMsg (respMsg cbrtStr v)],
           Ctl.continueLoop)

/-- The deferred block of `handleConn` (lines 165-168), run exactly once
when the loop exits for any reason: close the connection, then signal the
WaitGroup. -/
def handleConnDeferOps : List HOp :=
  [HOp.closeConn, HOp.wgDone]

/-! ### Acceptor (`serverGo`, lines 145-155) -/

/-- Observable operations of one accept-loop iteration. -/
inductive SOp
  | logAcceptError
  | remoteAddrOfConn
  | logEstablished
  | spawnHandler
deriving DecidableEq

/-- `listener.Accept()` returns a connection on success and a nil
connection together with the error on failure. -/
def acceptResult (acceptOk : Bool) : Option Unit :=
  if acceptOk then some () else none

/-- `conn.RemoteAddr()`: calling a method on a nil `net.Conn` interface
value is a nil-pointer dereference, i.e. a runtime panic. -/
def remoteAddr : Option Unit → Except Unit Unit
  | some _ => Except.ok ()
  | none => Except.error ()

/-- One iteration of the accept loop (lines 146-153): on an accept error
the code logs it (line 148) but has no `continue`, so it falls through to
`printServerLog("Established ...", conn.RemoteAddr())` and evaluates
`conn.RemoteAddr()` on the nil connection.  Result: the operations that
executed, and whether the iteration panicked.  Without a panic the loop
always continues (the `for` has no exit). -/
def serverGoStep (acceptOk : Bool) : List SOp × Bool :=
  let conn := acceptResult acceptOk
  let logOps : List SOp := if acceptOk then [] else [SOp.logAcceptError]
  match remoteAddr conn with
  | Except.error _ => (logOps, true)
  | Except.ok _ =>
      (logOps ++ [SOp.remoteAddrOfConn, SOp.logEstablished, SOp.spawnHandler], false)

/-! ### WaitGroup accounting (`wg`, lines 23, 153, 165-168, 211, 253-259) -/

/-- Events relevant to the completion tracker: WaitGroup operations, and
the spawn / termination of a goroutine. -/
inductive WgEv
  | wgAdd (n : Nat)
  | wgDone
  | spawnTask
  | exitTask
deriving DecidableEq

/-- `main` (lines 253-259): `wg.Add(2)` once, then `go serverGo()` and
`go clientGo(1)`. -/
def mainStartEvs : List WgEv :=
  [WgEv.wgAdd 2, WgEv.spawnTask, WgEv.spawnTask]

/-- Dispatch of a connection in `serverGo` (line 153): `go handleConn(conn)`
with no WaitGroup operation of any kind. -/
def handlerSpawnEvs : List WgEv :=
  [WgEv.spawnTask]

/-- Termination of a `handleConn` goroutine: the deferred block (lines
165-168) runs `wg.Done()` once. -/
def handlerExitEvs : List WgEv :=
  [WgEv.exitTask, WgEv.wgDone]

/-- Termination of `clientGo` (line 211): `defer wg.Done()`. -/
def clientExitEvs : List WgEv :=
  [WgEv.exitTask, WgEv.wgDone]

def wgDelta : WgEv → Int
  | WgEv.wgAdd n => (n : Int)
  | WgEv.wgDone => -1
  | _ => 0

def liveDelta : WgEv → Int
  | WgEv.spawnTask => 1
  | WgEv.exitTask => -1
  | _ => 0

/-- The WaitGroup counter after a trace of events. -/
def wgCount (t : List WgEv) : Int :=
  (t.map wgDelta).sum

/-- The number of spawned-but-unterminated goroutines after a trace. -/
def liveTasks (t : List WgEv) : Int :=
  (t.map liveDelta).sum

/-- A reachable program trace per the code: main starts, then `spawns`
handler dispatches, `exits` handler terminations, and optionally the
client's termination. -/
def runTrace (spawns exits : Nat) (clientDone : Bool) : List WgEv :=
  mainStartEvs ++ (List.replicate spawns handlerSpawnEvs).flatten
    ++ (List.replicate exits handlerExitEvs).flatten
    ++ (if clientDone then clientExitEvs else [])

/-! ### Theorems -/

/-- Helper: `readLoop` over a pure byte stream consisting of a
delimiter-free payload, the delimiter, and a remainder, returns the
accumulator extended by the payload and leaves the remainder untouched. -/
theorem readLoop_bytes (r : List Nat) :
    ∀ (p : List Nat) (buf : Nat) (acc : List Nat), DELIMITER ∉ p →
      readLoop (List.map ReadEv.byte (p ++ DELIMITER :: r)) buf acc
        = Except.ok (acc ++ p, List.map ReadEv.byte r) := by
  intro p
  induction p with
  | nil =>
      intro buf acc _
      simp [readLoop]
  | cons a t ih =>
      intro buf acc h
      have ha : ¬ a = DELIMITER := by
        intro he
        exact h (by simp [he])
      have ht : DELIMITER ∉ t := by
        intro hm
        exact h (List.mem_cons_of_mem a hm)
      simp only [List.cons_append, List.map_cons]
      rw [readLoop]
      simp only [if_neg ha]
      rw [ih a (acc ++ [a]) ht]
      simp

/-- Claim C5: for a payload containing no delimiter byte, writing it with
`write` and then decoding the stream with `read` reproduces the payload
exactly, and `read` consumes exactly the payload plus the single
delimiter, leaving the bytes of any subsequent message unconsumed. -/
theorem read_write_roundtrip (payload rest : List Nat) (h : DELIMITER ∉ payload) :
    read (List.map ReadEv.byte (write payload ++ rest))
      = Except.ok (payload, List.map ReadEv.byte rest) := by
  have hw : write payload ++ rest = payload ++ DELIMITER :: rest := by
    simp [write, Buffer.writeString, Buffer.writeByte]
  rw [read, hw, readLoop_bytes rest payload 0 [] h]
  simp

/-- Witness for C5 at the concrete payload `[97, 98]` followed by a byte
`99` of the next message. -/
theorem read_write_roundtrip_w :
    DELIMITER ∉ ([97, 98] : List Nat)
    ∧ read (List.map ReadEv.byte (write [97, 98] ++ [99]))
        = Except.ok ([97, 98], [ReadEv.byte 99]) :=
  ⟨by decide, read_write_roundtrip [97, 98] [99] (by decide)⟩

/-- Claim C6: `write` stages exactly the content bytes followed by exactly
one delimiter byte into the single outbound `conn.Write`, and the byte
count returned on success equals `len(content) + 1`. -/
theorem write_appends_delimiter_len (content : List Nat) :
    write content = content ++ [DELIMITER]
    ∧ writeSuccessCount content = content.length + 1 := by
  constructor <;> simp [write, writeSuccessCount, Buffer.writeString, Buffer.writeByte]

/-- Claim C7 (code bug): `read` ignores the byte count returned by
`conn.Read`, so a zero-byte, no-error read is not treated as a protocol
violation — the stale content of the 1-byte buffer is processed again as
if it had been received.  On the stream `'a'`, then a `(0, nil)` read,
then the delimiter, the code returns the message `"aa"`, duplicating the
stale byte 97. -/
theorem read_zero_byte_stale_reuse :
    read [ReadEv.byte 97, ReadEv.zero, ReadEv.byte DELIMITER]
      = Except.ok ([97, 97], []) := by
  rfl

/-- Counterexample to claim C3: the input `"99999999999999999999"` has
numeric value `10^20 - 1`, far above the signed 32-bit range, yet
`strToInt32` fails with the `notInteger` error (not the 32-bit range
error), because `strconv.ParseInt` already fails on it with `ErrRange`
for the 64-bit width and `strToInt32` maps every `ParseInt` error to
`"%s" is not integer`. -/
theorem strToInt32_wide_value_not_integer_cex :
    digitsVal (String.toList "99999999999999999999") = 99999999999999999999
    ∧ ((2 : Int) ^ 31 - 1 < 99999999999999999999)
    ∧ strToInt32 "99999999999999999999"
        = Except.error (ReqErr.notInteger "99999999999999999999")
    ∧ ReqErr.notInteger "99999999999999999999"
        ≠ ReqErr.notInt32 99999999999999999999 := by
  refine ⟨by rfl, by decide, by rfl, by decide⟩

/-- Claim C3 as amended: an input whose value parses within 64 bits
(`goParseInt` succeeds) but exceeds the signed 32-bit range fails with the
`notInt32` (out-of-range) error; values too wide even for 64-bit parsing
instead take the `notInteger` path. -/
theorem strToInt32_out_of_range (s : String) (n : Int)
    (hp : goParseInt s = Except.ok n)
    (hr : (2 ^ 31 - 1 : Int) < n ∨ n < -(2 ^ 31)) :
    strToInt32 s = Except.error (ReqErr.notInt32 n) := by
  unfold strToInt32
  rw [hp]
  exact if_pos hr

/-- Witness for the amended C3 at `"99999999999"`, a value inside the
64-bit range and above the 32-bit range. -/
theorem strToInt32_out_of_range_w :
    goParseInt "99999999999" = Except.ok 99999999999
    ∧ strToInt32 "99999999999" = Except.error (ReqErr.notInt32 99999999999) :=
  ⟨by rfl, strToInt32_out_of_range "99999999999" 99999999999 (by rfl) (by decide)⟩

/-- Counterexample to claim C1: in an iteration whose response write fails
(`_wFail = true` on the request `"8"`), the handler loop does not
terminate — the iteration's control outcome is `continueLoop`, so the
handler proceeds to read a further request on that connection. -/
theorem write_failure_continues_cex :
    (handleConnStep (fun _ => "2.000000") (ReadResult.msg "8") true).2
        = Ctl.continueLoop
    ∧ Ctl.continueLoop ≠ Ctl.breakLoop := by
  refine ⟨by rfl, by decide⟩

/-- Claim C1 as amended: a failed write of the response is only logged;
the loop continues and reads the next request, and the failed write is not
retried — each request iteration performs exactly one write. -/
theorem write_failure_no_retry_continue (f : Int → String) (s : String) :
    (handleConnStep f (ReadResult.msg s) true).2 = Ctl.continueLoop
    ∧ ((handleConnStep f (ReadResult.msg s) true).1.filter isWriteOp).length = 1 := by
  cases h : strToInt32 s with
  | error e => simp [handleConnStep, h, isWriteOp, List.filter]
  | ok v => simp [handleConnStep, h, isWriteOp, List.filter]

/-- Claim C2 (code bug): when `Accept` fails, the iteration logs the error
but then panics — the loop body has no `continue`, so the code evaluates
`conn.RemoteAddr()` on the nil connection, a nil-interface dereference
that crashes the server instead of continuing to the next `Accept`. -/
theorem accept_error_panics :
    serverGoStep false = ([SOp.logAcceptError], true)
    ∧ serverGoStep true
        = ([SOp.remoteAddrOfConn, SOp.logEstablished, SOp.spawnHandler], false) := by
  refine ⟨by rfl, by rfl⟩

/-- Claim C8: a request that fails validation is answered with exactly one
message carrying the failure's textual description, and the loop
continues to the next read, whether or not that write fails — a
validation failure never terminates the connection. -/
theorem validation_failure_answered_continue (f : Int → String) (s : String)
    (e : ReqErr) (w : Bool) (h : strToInt32 s = Except.error e) :
    handleConnStep f (ReadResult.msg s) w
      = ([HOp.setReadDeadline 10, HOp.readCall, HOp.writeMsg (errText e)],
         Ctl.continueLoop) := by
  simp [handleConnStep, h]

/-- Witness for C8 at the non-numeric request `"abc"`. -/
theorem validation_failure_answered_continue_w :
    strToInt32 "abc" = Except.error (ReqErr.notInteger "abc")
    ∧ handleConnStep (fun _ => "") (ReadResult.msg "abc") false
        = ([HOp.setReadDeadline 10, HOp.readCall,
            HOp.writeMsg (errText (ReqErr.notInteger "abc"))], Ctl.continueLoop) :=
  ⟨by rfl,
   validation_failure_answered_continue (fun _ => "") "abc"
     (ReqErr.notInteger "abc") false (by rfl)⟩

/-- Claim C9: every handler iteration sets the read deadline to
now + 10 seconds before its `read` call; an idle timeout makes the
iteration exit the loop with no message written, and the deferred block
then closes the connection. -/
theorem idle_timeout_terminates (f : Int → String) (w : Bool) :
    handleConnStep f ReadResult.timeoutEv w
        = ([HOp.setReadDeadline 10, HOp.readCall], Ctl.breakLoop)
    ∧ (∀ r, ∃ t, (handleConnStep f r w).1
        = HOp.setReadDeadline 10 :: HOp.readCall :: t)
    ∧ HOp.closeConn ∈ handleConnDeferOps := by
  refine ⟨rfl, ?_, by simp [handleConnDeferOps]⟩
  intro r
  cases r with
  | msg s =>
      cases h : strToInt32 s with
      | error e =>
          exact ⟨[HOp.writeMsg (errText e)], by simp [handleConnStep, h]⟩
      | ok v =>
          exact ⟨[HOp.writeMsg (respMsg f v)], by simp [handleConnStep, h]⟩
  | eofClosed => exact ⟨[], rfl⟩
  | timeoutEv => exact ⟨[], rfl⟩
  | ioFail => exact ⟨[], rfl⟩

/-- Counterexample to claim C4: after main's start (`wg.Add(2)` and two
task spawns) and one connection-handler dispatch, three tasks have been
spawned and none has terminated, yet the WaitGroup counter is 2 — the
handler spawn at `go handleConn(conn)` performs no increment, so the
counter does not equal the number of unterminated tasks. -/
theorem wg_count_mismatch_cex :
    wgCount (mainStartEvs ++ handlerSpawnEvs) = 2
    ∧ liveTasks (mainStartEvs ++ handlerSpawnEvs) = 3
    ∧ (2 : Int) ≠ 3 := by
  refine ⟨by rfl, by rfl, by decide⟩

/-- Helper: the delta sum of `n` concatenated copies of an event block. -/
theorem sum_map_flatten_replicate (g : WgEv → Int) (n : Nat) (l : List WgEv) :
    (((List.replicate n l).flatten).map g).sum = (n : Int) * ((l.map g).sum) := by
  induction n with
  | zero => simp
  | succ k ih =>
      simp only [List.replicate_succ, List.flatten_cons, List.map_append,
        List.sum_append, ih]
      push_cast
      ring

/-- Claim C4 as amended: the WaitGroup is incremented only by main's
single `wg.Add(2)`; connection-handler spawns perform no increment, while
each handler termination and the client's termination decrement it once
(and the server task never decrements).  Hence after any such trace the
counter equals `2 - exits - client`, while the number of unterminated
tasks is `2 + spawns - exits - client`; the two differ by the number of
handler spawns. -/
theorem wg_count_formula (spawns exits : Nat) (clientDone : Bool) :
    wgCount (runTrace spawns exits clientDone)
        = 2 - (exits : Int) - (if clientDone then 1 else 0)
    ∧ liveTasks (runTrace spawns exits clientDone)
        = 2 + (spawns : Int) - (exits : Int) - (if clientDone then 1 else 0) := by
  have h1 := sum_map_flatten_replicate wgDelta spawns handlerSpawnEvs
  have h2 := sum_map_flatten_replicate wgDelta exits handlerExitEvs
  have h3 := sum_map_flatten_replicate liveDelta spawns handlerSpawnEvs
  have h4 := sum_map_flatten_replicate liveDelta exits handlerExitEvs
  cases clientDone with
  | false =>
      constructor <;>
        simp_all [runTrace, wgCount, liveTasks, mainStartEvs, handlerSpawnEvs,
          handlerExitEvs, clientExitEvs, wgDelta, liveDelta] <;>
        ring
  | true =>
      constructor <;>
        simp_all [runTrace, wgCount, liveTasks, mainStartEvs, handlerSpawnEvs,
          handlerExitEvs, clientExitEvs, wgDelta, liveDelta] <;>
        ring

end TcpSocket
